import Mathlib

/-!
Verification of the runtime-type synthesis pipeline
(`generateRuntimeTypes` / `generate` in
`packages/wrangler/src/type-generation/runtime/index.ts`).

The two functions are embedded shallowly.  External collaborators
(the filesystem, the Miniflare sandbox, the Node `path` helpers) are
modelled by a deterministic environment `Env` whose fields fix the
outcome of every external call, and by executable models of
`path.dirname` / `path.resolve`.  Each run is reflected as a triple:
the returned value (or the thrown error), the ordered trace of
externally visible events, and the final content of the output file.
-/

namespace RuntimeTypes

/-- Error taxonomy for the pipeline.  The source throws plain
`Error`s; the constructors record which failure site produced them:
the two explicit `throw new Error(...)` statements map to
`configurationError` with the source's message, `ensureDirectoryExists`
and `writeFile` failures map to `ioError`, `readFileSync` and
`new Miniflare` failures to `runtimeBootError`, and `dispatchFetch` /
`res.text()` failures to `dispatchError`. -/
inductive GenError
  | configurationError (msg : String)
  | ioError
  | runtimeBootError
  | dispatchError
deriving DecidableEq, Repr

/-- Externally visible events of one invocation, in program order:
`ensureDir p` is the `ensureDirectoryExists` call on the output path,
`readScript` the `readFileSync` of the bundled worker module,
`boot d fl s` the `new Miniflare` construction with compatibility
profile `(d, fl)` and script `s`, `dispatch p` the `dispatchFetch`
on the encoded path, `readBody` the `res.text()` call, `write p c`
the `writeFile` of content `c` to `p`, and `dispose` the
`mf.dispose()` call. -/
inductive Event
  | ensureDir (path : String)
  | readScript
  | boot (compatibilityDate : String) (compatibilityFlags : List String) (script : String)
  | dispatch (path : String)
  | readBody
  | write (path : String) (content : String)
  | dispose
deriving DecidableEq, Repr

/-- Deterministic model of the external collaborators for one run.
`readScriptResult` is the bundled worker module (`none` = the
`readFileSync` throws), `bootOk` whether `new Miniflare` succeeds,
`dispatchResult` maps a request path to the response body (`none` =
`dispatchFetch` rejects), `textOk` whether `res.text()` succeeds,
`ensureDirOk` whether `ensureDirectoryExists` succeeds, and
`writeFailAt` is `none` when `writeFile` completes or `some k` when it
fails after `k` characters have reached the (truncated) destination —
the in-place truncate-then-write semantics of `fs/promises.writeFile`. -/
structure Env where
  ensureDirOk : Bool
  readScriptResult : Option String
  bootOk : Bool
  dispatchResult : String → Option String
  textOk : Bool
  writeFailAt : Option Nat

/-- The `compatibilityDate` literal passed to the `Miniflare`
constructor (source line 202). -/
def internalCompatibilityDate : String := "2024-01-01"

/-- The `compatibilityFlags` literal passed to the `Miniflare`
constructor (source line 203). -/
def internalCompatibilityFlags : List String := ["nodejs_compat", "rtti_api"]

/-- `flagsString` (source lines 208-210): empty when no flags,
otherwise a `+` followed by the flags joined with `+`. -/
def flagsString (compatibilityFlags : List String) : String :=
  if compatibilityFlags.length ≠ 0 then
    "+" ++ String.intercalate "+" compatibilityFlags
  else ""

/-- The encoded request path `path` (source line 211):
the fixed authority, the compatibility date verbatim, then the
flags suffix. -/
def requestPath (compatibilityDate : String) (compatibilityFlags : List String) : String :=
  "http://dummy.com/" ++ compatibilityDate ++ flagsString compatibilityFlags

/-- `generate` (source lines 188-217), reflected over `Env`.
Arguments are the destructured options object; `fs0` is the prior
content of the output file (`none` = absent).  Returns the thrown
error or unit, the event trace, and the final output-file content.
The final `Promise.all([writeFile ..., mf.dispose()])` starts both
operations, so `write` and `dispose` both appear once that line is
reached, even when the write fails; an exception from `dispatchFetch`
or `res.text()` propagates before that line, so neither event occurs. -/
def generate (env : Env) (fs0 : Option String) (outfilePath : String)
    (compatibilityDate : String) (compatibilityFlags : List String) :
    Except GenError Unit × List Event × Option String :=
  match env.readScriptResult with
  | none => (Except.error GenError.runtimeBootError, [Event.readScript], fs0)
  | some workerScript =>
    let bootEv := Event.boot internalCompatibilityDate internalCompatibilityFlags workerScript
    if env.bootOk then
      let path := requestPath compatibilityDate compatibilityFlags
      match env.dispatchResult path with
      | none =>
        (Except.error GenError.dispatchError,
          [Event.readScript, bootEv, Event.dispatch path], fs0)
      | some body =>
        if env.textOk then
          match env.writeFailAt with
          | none =>
            (Except.ok (),
              [Event.readScript, bootEv, Event.dispatch path, Event.readBody,
                Event.write outfilePath body, Event.dispose],
              some body)
          | some k =>
            (Except.error GenError.ioError,
              [Event.readScript, bootEv, Event.dispatch path, Event.readBody,
                Event.write outfilePath body, Event.dispose],
              some (body.take k))
        else
          (Except.error GenError.dispatchError,
            [Event.readScript, bootEv, Event.dispatch path, Event.readBody], fs0)
    else
      (Except.error GenError.runtimeBootError, [Event.readScript, bootEv], fs0)

/-- `DEFAULT_OUTFILE_RELATIVE_PATH` (source line 110). -/
def DEFAULT_OUTFILE_RELATIVE_PATH : String := "./.wrangler/types/runtime.d.ts"

/-- JavaScript falsiness of the `compatibility_date` field as tested
by `if (!compatibility_date)`: `undefined` (here `none`) and the
empty string are falsy; every other string is truthy. -/
def dateIsFalsy : Option String → Bool
  | none => true
  | some d => d == ""

/-- Scan of Node `path.posix.dirname`: walking indices from
`cs.length - 1` down to `1`, skip the trailing run of slashes, then
return the index of the next slash (the end of the directory part),
or `none` when no such slash exists. -/
def dirnameScan (cs : List Char) : Nat → Bool → Option Nat
  | 0, _ => none
  | i + 1, matchedSlash =>
    if cs.getD (i + 1) ' ' = '/' then
      if !matchedSlash then some (i + 1)
      else dirnameScan cs i matchedSlash
    else dirnameScan cs i false

/-- Model of Node `path.posix.dirname` (an external collaborator of
the source, from `path`): the directory part of a path — `"."` for
paths with no directory part, `"/"` for root-only paths. -/
def dirname (p : String) : String :=
  if p.length = 0 then "."
  else
    let cs := p.data
    let hasRoot := cs.head? == some '/'
    match dirnameScan cs (cs.length - 1) true with
    | none => if hasRoot then "/" else "."
    | some e =>
      if hasRoot && e == 1 then "//"
      else String.mk (cs.take e)

/-- One normalization step of path resolution: `""` and `"."`
segments are dropped, `".."` pops the previous segment (saturating at
the root for absolute paths, accumulating for relative ones), and any
other segment is pushed.  The stack holds segments most-recent first. -/
def resolveSeg (isAbs : Bool) (stack : List String) (seg : String) : List String :=
  if seg == "" || seg == "." then stack
  else if seg == ".." then
    match stack with
    | [] => if isAbs then [] else [".."]
    | top :: rest => if top == ".." then ".." :: top :: rest else rest
  else seg :: stack

/-- Model of Node `path.posix.resolve(base, rel)` (an external
collaborator of the source, from `path`), with the
current-working-directory fallback omitted: when `rel` is absolute it
is normalized alone, otherwise the two are joined and normalized.
Faithful whenever `base` is absolute, which is how the source invokes
it (the project root is an absolute path). -/
def resolvePath (base rel : String) : String :=
  let joined := if rel.startsWith "/" then rel else base ++ "/" ++ rel
  let isAbs := joined.startsWith "/"
  let segs := ((joined.splitOn "/").foldl (resolveSeg isAbs) []).reverse
  let body := String.intercalate "/" segs
  if isAbs then (if body == "" then "/" else "/" ++ body)
  else (if body == "" then "." else body)

/-- The `config` argument: the two fields of the parsed `Config`
object that the source reads.  `compatibility_date` is
`string | undefined` (`none` = absent from the configuration file). -/
structure Config where
  compatibility_date : Option String
  compatibility_flags : List String

/-- `generateRuntimeTypes` (source lines 143-175), reflected over
`Env`.  `outFile` and `rootPath` are the optional members of the
options object.  The date check runs first, then the path-information
check; the output target is `outFile` verbatim when supplied
(JavaScript `??` falls through only on `undefined`/`null`), else the
fixed relative suffix resolved against `dirname rootPath`; then
`ensureDirectoryExists` runs, and only on its success is `generate`
invoked. -/
def generateRuntimeTypes (env : Env) (fs0 : Option String) (config : Config)
    (outFile : Option String) (rootPath : Option String) :
    Except GenError Unit × List Event × Option String :=
  if dateIsFalsy config.compatibility_date then
    (Except.error (GenError.configurationError "Config must have a compatability date."),
      [], fs0)
  else
    match outFile, rootPath with
    | none, none =>
      (Except.error
        (GenError.configurationError "A rootPath must be specified if no outFile is provided"),
        [], fs0)
    | oF, rP =>
      let outFileAbsolute :=
        match oF with
        | some f => f
        | none => resolvePath (dirname (rP.getD "")) DEFAULT_OUTFILE_RELATIVE_PATH
      if env.ensureDirOk then
        let r := generate env fs0 outFileAbsolute
          (config.compatibility_date.getD "") config.compatibility_flags
        (r.1, Event.ensureDir outFileAbsolute :: r.2.1, r.2.2)
      else
        (Except.error GenError.ioError, [Event.ensureDir outFileAbsolute], fs0)

/-- Whether an event is a `dispose` invocation. -/
def isDispose : Event → Bool
  | Event.dispose => true
  | _ => false

/-- Number of `dispose` invocations in a trace. -/
def disposeCount (tr : List Event) : Nat := (tr.filter isDispose).length

/-- Whether an event is a sandbox boot. -/
def isBoot : Event → Bool
  | Event.boot _ _ _ => true
  | _ => false

/-- A run in which every external collaborator succeeds: the bundled
script is read, the sandbox boots, the dispatched request yields a
fixed declaration text, and the write completes. -/
def envAllOk : Env :=
  { ensureDirOk := true, readScriptResult := some "worker-script", bootOk := true,
    dispatchResult := fun _ => some "declare const X: string;", textOk := true,
    writeFailAt := none }

/-- A run in which `dispatchFetch` rejects; everything else would
succeed. -/
def envDispatchFail : Env :=
  { ensureDirOk := true, readScriptResult := some "worker-script", bootOk := true,
    dispatchResult := fun _ => none, textOk := true, writeFailAt := none }

/-- A run in which the `Miniflare` construction fails; the script
read succeeds. -/
def envBootFail : Env :=
  { ensureDirOk := true, readScriptResult := some "worker-script", bootOk := false,
    dispatchResult := fun _ => some "declare const X: string;", textOk := true,
    writeFailAt := none }

/-- A run in which dispatch succeeds with body `"newcontent"` but the
`writeFile` fails after a single character has been written. -/
def envWriteFail : Env :=
  { ensureDirOk := true, readScriptResult := some "worker-script", bootOk := true,
    dispatchResult := fun _ => some "newcontent", textOk := true, writeFailAt := some 1 }

end RuntimeTypes

namespace RuntimeTypes

/-- C3: for every compatibility date `d` and flag list `flags`, the
encoded request path is the fixed authority followed by `d`, with no
suffix when `flags` is empty and with `+`-joined flags in
caller-supplied order otherwise; in particular
`"2024-01-01"` with `["nodejs_compat", "rtti_api"]` encodes to
`"http://dummy.com/2024-01-01+nodejs_compat+rtti_api"` and with no
flags to `"http://dummy.com/2024-01-01"`. -/
theorem requestPath_encoding (d : String) (flags : List String) :
    requestPath d [] = "http://dummy.com/" ++ d
    ∧ (flags ≠ [] →
        requestPath d flags
          = "http://dummy.com/" ++ d ++ ("+" ++ String.intercalate "+" flags))
    ∧ requestPath "2024-01-01" ["nodejs_compat", "rtti_api"]
        = "http://dummy.com/2024-01-01+nodejs_compat+rtti_api"
    ∧ requestPath "2024-01-01" [] = "http://dummy.com/2024-01-01" := by
  refine ⟨?_, ?_, rfl, rfl⟩
  · simp [requestPath, flagsString]
  · intro h
    have hl : flags.length ≠ 0 := by simpa using h
    simp [requestPath, flagsString, hl, String.append_assoc]

/-- C3 witness: the non-empty-flags conjunct of
`requestPath_encoding` evaluated at the spec's example. -/
theorem requestPath_encoding_witness :
    requestPath "2023-07-24" ["experimental"]
      = "http://dummy.com/" ++ "2023-07-24"
          ++ ("+" ++ String.intercalate "+" ["experimental"]) :=
  (requestPath_encoding "2023-07-24" ["experimental"]).2.1 (by decide)

/-- C10: the request-path encoding is not injective: the distinct
configurations with date `"2024-01-01+a"` and no flags, and date
`"2024-01-01"` with flags `["a"]`, encode to the same path, because
the `+` delimiter is not escaped. -/
theorem requestPath_not_injective :
    requestPath "2024-01-01+a" [] = requestPath "2024-01-01" ["a"]
    ∧ ("2024-01-01+a", ([] : List String)) ≠ ("2024-01-01", ["a"]) :=
  ⟨by decide, by decide⟩

/-- C9: with a deterministic sandbox collaborator, running `generate`
a second time with identical configuration and identical output
target — starting from the file state the first run left behind —
returns the same result, produces the same event trace, and leaves
byte-identical content at the output target. -/
theorem generate_idempotent (env : Env) (fs0 : Option String) (p d : String)
    (flags : List String) :
    generate env (generate env fs0 p d flags).2.2 p d flags
      = generate env fs0 p d flags := by
  cases h1 : env.readScriptResult with
  | none => simp [generate, h1]
  | some ws =>
    cases h2 : env.bootOk with
    | false => simp [generate, h1, h2]
    | true =>
      cases h3 : env.dispatchResult (requestPath d flags) with
      | none => simp [generate, h1, h2, h3]
      | some body =>
        cases h4 : env.textOk with
        | false => simp [generate, h1, h2, h3, h4]
        | true =>
          cases h5 : env.writeFailAt with
          | none => simp [generate, h1, h2, h3, h4, h5]
          | some k => simp [generate, h1, h2, h3, h4, h5]

/-- C5: whenever neither `outFile` nor `rootPath` is supplied, the
call fails with a `ConfigurationError`, the event trace is empty (no
directory creation, no sandbox boot, no I/O), and the output file is
untouched — for every environment, prior file state and
configuration. -/
theorem generateRuntimeTypes_no_output_location (env : Env) (fs0 : Option String)
    (config : Config) :
    ∃ m, generateRuntimeTypes env fs0 config none none
      = (Except.error (GenError.configurationError m), [], fs0) := by
  by_cases h : dateIsFalsy config.compatibility_date = true
  · exact ⟨"Config must have a compatability date.", by simp [generateRuntimeTypes, h]⟩
  · exact ⟨"A rootPath must be specified if no outFile is provided",
      by simp [generateRuntimeTypes, h]⟩

/-- C4: a missing or empty compatibility date makes
`generateRuntimeTypes` fail with the `ConfigurationError` of source
line 155, with an empty event trace (no directory creation, no
sandbox activity) and the output file untouched; and the check is not
duplicated in the low-level `generate` step: `generate` never raises
a `ConfigurationError`, even on an empty date. -/
theorem generateRuntimeTypes_missing_date (env : Env) (fs0 : Option String)
    (config : Config) (outFile rootPath : Option String)
    (h : dateIsFalsy config.compatibility_date = true) :
    generateRuntimeTypes env fs0 config outFile rootPath
      = (Except.error
          (GenError.configurationError "Config must have a compatability date."),
          [], fs0)
    ∧ ∀ (env2 : Env) (fs2 : Option String) (p : String) (flags : List String)
        (m : String),
        (generate env2 fs2 p "" flags).1 ≠ Except.error (GenError.configurationError m) := by
  refine ⟨by simp [generateRuntimeTypes, h], ?_⟩
  intro env2 fs2 p flags m
  cases h1 : env2.readScriptResult with
  | none => simp [generate, h1]
  | some ws =>
    cases h2 : env2.bootOk with
    | false => simp [generate, h1, h2]
    | true =>
      cases h3 : env2.dispatchResult (requestPath "" flags) with
      | none => simp [generate, h1, h2, h3]
      | some body =>
        cases h4 : env2.textOk with
        | false => simp [generate, h1, h2, h3, h4]
        | true =>
          cases h5 : env2.writeFailAt with
          | none => simp [generate, h1, h2, h3, h4, h5]
          | some k => simp [generate, h1, h2, h3, h4, h5]

/-- C4 witness: `generateRuntimeTypes_missing_date` at a configuration
whose compatibility date is the empty string. -/
theorem generateRuntimeTypes_missing_date_witness :
    generateRuntimeTypes envAllOk (some "prior") ⟨some "", []⟩ (some "/tmp/out.d.ts") none
      = (Except.error
          (GenError.configurationError "Config must have a compatability date."),
          [], some "prior") :=
  (generateRuntimeTypes_missing_date envAllOk (some "prior") ⟨some "", []⟩
    (some "/tmp/out.d.ts") none (by decide)).1

/-- C6: whenever a sandbox boot appears in the trace of
`generateRuntimeTypes`, the directory-preparation step succeeded
(`ensureDirOk = true` — so a directory-creation failure means the
sandbox is never booted) and the very first event of the trace is the
`ensureDirectoryExists` call on the output target, so directory
preparation strictly precedes the boot. -/
theorem boot_only_after_directory_preparation (env : Env) (fs0 : Option String)
    (config : Config) (outFile rootPath : Option String)
    (d : String) (fl : List String) (s : String)
    (h : Event.boot d fl s ∈ (generateRuntimeTypes env fs0 config outFile rootPath).2.1) :
    env.ensureDirOk = true
    ∧ ∃ target, (generateRuntimeTypes env fs0 config outFile rootPath).2.1.head?
        = some (Event.ensureDir target) := by
  by_cases hd : dateIsFalsy config.compatibility_date = true
  · simp [generateRuntimeTypes, hd] at h
  · cases outFile with
    | some f =>
      cases he : env.ensureDirOk with
      | false => simp [generateRuntimeTypes, hd, he] at h
      | true => exact ⟨rfl, f, by simp [generateRuntimeTypes, hd, he]⟩
    | none =>
      cases rootPath with
      | none => simp [generateRuntimeTypes, hd] at h
      | some r =>
        cases he : env.ensureDirOk with
        | false => simp [generateRuntimeTypes, hd, he] at h
        | true =>
          exact ⟨rfl, resolvePath (dirname r) DEFAULT_OUTFILE_RELATIVE_PATH,
            by simp [generateRuntimeTypes, hd, he]⟩

/-- C6 witness: `boot_only_after_directory_preparation` on an all-ok
run in which the boot event does occur. -/
theorem boot_only_after_directory_preparation_witness :
    envAllOk.ensureDirOk = true
    ∧ ∃ target,
        (generateRuntimeTypes envAllOk none ⟨some "2024-01-01", []⟩
          (some "/tmp/out.d.ts") none).2.1.head?
          = some (Event.ensureDir target) :=
  boot_only_after_directory_preparation envAllOk none ⟨some "2024-01-01", []⟩
    (some "/tmp/out.d.ts") none "2024-01-01" ["nodejs_compat", "rtti_api"]
    "worker-script" (by decide)

/-- The boot events of a `generate` run: empty when the bundled
script cannot be read, otherwise exactly one boot carrying the fixed
internal compatibility profile and the script that was read. -/
theorem generate_boot_events (env : Env) (fs0 : Option String) (p d : String)
    (flags : List String) :
    ((generate env fs0 p d flags).2.1.filter isBoot)
      = (match env.readScriptResult with
         | none => []
         | some ws =>
            [Event.boot internalCompatibilityDate internalCompatibilityFlags ws]) := by
  cases h1 : env.readScriptResult with
  | none => simp [generate, h1, isBoot]
  | some ws =>
    cases h2 : env.bootOk with
    | false => simp [generate, h1, h2, isBoot]
    | true =>
      cases h3 : env.dispatchResult (requestPath d flags) with
      | none => simp [generate, h1, h2, h3, isBoot]
      | some body =>
        cases h4 : env.textOk with
        | false => simp [generate, h1, h2, h3, h4, isBoot]
        | true =>
          cases h5 : env.writeFailAt with
          | none => simp [generate, h1, h2, h3, h4, h5, isBoot]
          | some k => simp [generate, h1, h2, h3, h4, h5, isBoot]

/-- C7: every sandbox boot performed by `generate` uses the fixed
internal compatibility profile — date `"2024-01-01"` and flags
`["nodejs_compat", "rtti_api"]` — whatever date and flags the caller
requested; moreover the boot events of a run are identical across all
caller-supplied dates and flags. -/
theorem generate_boot_profile_fixed (env : Env) (fs0 : Option String) (p d : String)
    (flags : List String) (d2 : String) (fl2 : List String) (s : String)
    (h : Event.boot d2 fl2 s ∈ (generate env fs0 p d flags).2.1) :
    (d2 = "2024-01-01" ∧ fl2 = ["nodejs_compat", "rtti_api"])
    ∧ ∀ (d3 : String) (fl3 : List String),
        ((generate env fs0 p d flags).2.1.filter isBoot)
          = ((generate env fs0 p d3 fl3).2.1.filter isBoot) := by
  constructor
  · have hf : Event.boot d2 fl2 s ∈ ((generate env fs0 p d flags).2.1.filter isBoot) :=
      List.mem_filter.mpr ⟨h, by simp [isBoot]⟩
    rw [generate_boot_events] at hf
    cases h1 : env.readScriptResult with
    | none => rw [h1] at hf; simp at hf
    | some ws =>
      rw [h1] at hf
      simp only [List.mem_singleton, Event.boot.injEq] at hf
      exact ⟨hf.1, hf.2.1⟩
  · intro d3 fl3
    rw [generate_boot_events, generate_boot_events]

/-- C7 witness: `generate_boot_profile_fixed` on an all-ok run with a
caller-supplied configuration different from the internal profile. -/
theorem generate_boot_profile_fixed_witness :
    ("2024-01-01" = "2024-01-01"
      ∧ ["nodejs_compat", "rtti_api"] = ["nodejs_compat", "rtti_api"])
    ∧ ∀ (d3 : String) (fl3 : List String),
        ((generate envAllOk none "/tmp/out.d.ts" "2023-07-24" ["experimental"]).2.1.filter
            isBoot)
          = ((generate envAllOk none "/tmp/out.d.ts" d3 fl3).2.1.filter isBoot) :=
  generate_boot_profile_fixed envAllOk none "/tmp/out.d.ts" "2023-07-24" ["experimental"]
    "2024-01-01" ["nodejs_compat", "rtti_api"] "worker-script" (by decide)

/-- C1 counterexample: on an exception raised during request dispatch
(`dispatchFetch` rejects), `generate` propagates the error without
ever invoking `mf.dispose()` — the dispose count of the run is `0`,
not `1`, so the sandbox is not disposed on every exit path. -/
theorem dispose_skipped_on_dispatch_failure :
    (generate envDispatchFail (some "old") "/tmp/out.d.ts" "2024-01-01" []).1
        = Except.error GenError.dispatchError
    ∧ disposeCount
        (generate envDispatchFail (some "old") "/tmp/out.d.ts" "2024-01-01" []).2.1 = 0 :=
  ⟨rfl, rfl⟩

/-- C1 (amended): the sandbox instance is disposed exactly once on
success and on an exception raised while writing the output file
(the write and the disposal are started together by `Promise.all`,
so the dispose still runs when the write fails); it is not disposed
when dispatch or the response-body read fails.  This theorem proves
the positive half: whenever the body read is reached, the dispose
count is exactly `1`, for every write outcome. -/
theorem generate_dispose_once_when_body_read (env : Env) (fs0 : Option String)
    (p d : String) (flags : List String)
    (h1 : env.readScriptResult.isSome = true) (h2 : env.bootOk = true)
    (h3 : (env.dispatchResult (requestPath d flags)).isSome = true)
    (h4 : env.textOk = true) :
    disposeCount (generate env fs0 p d flags).2.1 = 1 := by
  cases hr : env.readScriptResult with
  | none => rw [hr] at h1; simp at h1
  | some ws =>
    cases hd2 : env.dispatchResult (requestPath d flags) with
    | none => rw [hd2] at h3; simp at h3
    | some body =>
      cases h5 : env.writeFailAt with
      | none => simp [generate, hr, h2, hd2, h4, h5, disposeCount, isDispose]
      | some k => simp [generate, hr, h2, hd2, h4, h5, disposeCount, isDispose]

/-- C1 witness: `generate_dispose_once_when_body_read` on a run whose
write fails — the disposal still happens exactly once. -/
theorem generate_dispose_once_when_body_read_witness :
    disposeCount (generate envWriteFail (some "old") "/tmp/out.d.ts" "2024-01-01" []).2.1
      = 1 :=
  generate_dispose_once_when_body_read envWriteFail (some "old") "/tmp/out.d.ts"
    "2024-01-01" [] rfl rfl rfl rfl

/-- C2 counterexample: a `writeFile` that fails after one character
leaves the destination holding `some "n"` — a file exists, it differs
from the prior content `"old"`, and it is a strict prefix of the new
content `"newcontent"`: a failed invocation CAN leave a half-written,
corrupted destination file, because the source writes in place with
`fs/promises.writeFile` rather than write-then-rename. -/
theorem partial_file_left_on_write_failure :
    (generate envWriteFail (some "old") "/tmp/out.d.ts" "2024-01-01" []).1
        = Except.error GenError.ioError
    ∧ (generate envWriteFail (some "old") "/tmp/out.d.ts" "2024-01-01" []).2.2
        = some "n"
    ∧ some "n" ≠ (none : Option String)
    ∧ some "n" ≠ some "old"
    ∧ some "n" ≠ some "newcontent" :=
  ⟨rfl, rfl, by decide, by decide, by decide⟩

/-- C2 (amended): a failure before the write step — script read
failure, sandbox boot failure, dispatch failure, or body-read
failure — leaves the output target byte-for-byte untouched; a failure
of the write itself, however, leaves the destination holding the
first `k` characters of the new content (in-place truncate-then-write,
not write-then-rename), so a half-written file is possible exactly on
the write-failure path. -/
theorem generate_outfile_on_failure (env : Env) (fs0 : Option String)
    (p d : String) (flags : List String) :
    ((env.readScriptResult = none ∨ env.bootOk = false
        ∨ env.dispatchResult (requestPath d flags) = none ∨ env.textOk = false) →
      (generate env fs0 p d flags).2.2 = fs0)
    ∧ (∀ (body : String) (k : Nat),
        env.readScriptResult.isSome = true → env.bootOk = true →
        env.dispatchResult (requestPath d flags) = some body →
        env.textOk = true → env.writeFailAt = some k →
        (generate env fs0 p d flags).2.2 = some (body.take k)) := by
  constructor
  · intro h
    cases hr : env.readScriptResult with
    | none => simp [generate, hr]
    | some ws =>
      cases hb : env.bootOk with
      | false => simp [generate, hr, hb]
      | true =>
        cases hd2 : env.dispatchResult (requestPath d flags) with
        | none => simp [generate, hr, hb, hd2]
        | some body =>
          cases ht : env.textOk with
          | false => simp [generate, hr, hb, hd2, ht]
          | true =>
            rcases h with h | h | h | h
            · rw [hr] at h; cases h
            · rw [hb] at h; cases h
            · rw [hd2] at h; cases h
            · rw [ht] at h; cases h
  · intro body k h1 h2 h3 h4 h5
    cases hr : env.readScriptResult with
    | none => rw [hr] at h1; simp at h1
    | some ws => simp [generate, hr, h2, h3, h4, h5]

/-- C2 witness: the pre-write conjunct of `generate_outfile_on_failure`
on a sandbox-boot failure over a pre-existing file — the prior content
is preserved. -/
theorem generate_outfile_on_failure_witness :
    (generate envBootFail (some "prior") "/tmp/out.d.ts" "2024-01-01" []).2.2
      = some "prior" :=
  (generate_outfile_on_failure envBootFail (some "prior") "/tmp/out.d.ts"
    "2024-01-01" []).1 (Or.inr (Or.inl rfl))

/-- C8: the resolution of the output target: when `outFile` is
supplied it is used verbatim and the root path is never consulted
(the whole run is identical for any two root paths, and the target
prepared by `ensureDirectoryExists` is exactly `outFile`); when only
`rootPath` is supplied, the target is the fixed relative suffix
`DEFAULT_OUTFILE_RELATIVE_PATH` resolved against the directory
containing `rootPath`. -/
theorem output_target_resolution :
    (∀ (env : Env) (fs0 : Option String) (config : Config) (f : String)
        (rp1 rp2 : Option String),
        generateRuntimeTypes env fs0 config (some f) rp1
          = generateRuntimeTypes env fs0 config (some f) rp2)
    ∧ (∀ (env : Env) (fs0 : Option String) (config : Config) (f : String)
        (rp : Option String),
        dateIsFalsy config.compatibility_date = false →
        (generateRuntimeTypes env fs0 config (some f) rp).2.1.head?
          = some (Event.ensureDir f))
    ∧ (∀ (env : Env) (fs0 : Option String) (config : Config) (r : String),
        dateIsFalsy config.compatibility_date = false →
        (generateRuntimeTypes env fs0 config none (some r)).2.1.head?
          = some (Event.ensureDir
              (resolvePath (dirname r) DEFAULT_OUTFILE_RELATIVE_PATH))) := by
  refine ⟨?_, ?_, ?_⟩
  · intro env fs0 config f rp1 rp2
    by_cases hd : dateIsFalsy config.compatibility_date = true
    · simp [generateRuntimeTypes, hd]
    · cases rp1 <;> cases rp2 <;> simp [generateRuntimeTypes, hd]
  · intro env fs0 config f rp hd
    cases he : env.ensureDirOk with
    | false => simp [generateRuntimeTypes, hd, he]
    | true => simp [generateRuntimeTypes, hd, he]
  · intro env fs0 config r hd
    cases he : env.ensureDirOk with
    | false => simp [generateRuntimeTypes, hd, he]
    | true => simp [generateRuntimeTypes, hd, he]

/-- C8 witness: the `rootPath`-derived conjunct of
`output_target_resolution` at a concrete project root — the target is
the tool-owned cache file next to the root configuration file. -/
theorem output_target_resolution_witness :
    (generateRuntimeTypes envAllOk none ⟨some "2024-01-01", []⟩ none
        (some "/proj/wrangler.toml")).2.1.head?
      = some (Event.ensureDir
          (resolvePath (dirname "/proj/wrangler.toml") DEFAULT_OUTFILE_RELATIVE_PATH)) :=
  output_target_resolution.2.2 envAllOk none ⟨some "2024-01-01", []⟩
    "/proj/wrangler.toml" rfl

end RuntimeTypes
